import Mathlib

/-
Verification of the rate-limited, multi-tier cache layer of MCP-Bets.

The definitions below are a shallow embedding of:
- class RateLimiter in backend/mcp_bets/services/ingestion/sportsdataio_client.py
- class CacheManager and the cache-key helpers in
  backend/mcp_bets/services/cache/cache_manager.py
- the CacheEntry.is_expired property in backend/mcp_bets/models/cache_entry.py

Python floats (token counts, time.time() readings) are modelled as rationals;
Python ints as naturals where the source only ever stores non-negative counts.
-/

/-- Model of the value
datetime.now(timezone.utc).replace(day=1, hour=0, minute=0, second=0)
computed by RateLimiter. Note that replace pins day/hour/minute/second but
keeps the year, month and the microsecond fields, so two such values compare
lexicographically by (absolute month index, microsecond). -/
structure MonthStamp where
  month : Nat
  micro : Nat
deriving DecidableEq

/-- Python aware-datetime comparison, restricted to month-window stamps:
lexicographic on (month, microsecond) since all remaining fields are pinned. -/
def MonthStamp.lt (a b : MonthStamp) : Bool :=
  a.month < b.month || (a.month == b.month && a.micro < b.micro)

/-- Constructor parameters of RateLimiter. -/
structure RLParams where
  requests_per_second : ℚ
  requests_per_month : Nat
  burst_size : Nat
deriving DecidableEq

/-- The mutable fields of one RateLimiter instance. -/
structure RLState where
  tokens : ℚ
  last_update : ℚ
  monthly_requests : Nat
  month_start : MonthStamp
deriving DecidableEq

/-- State set up by RateLimiter.__init__: a full bucket of float(burst_size)
tokens, monthly_requests = 0, last_update and month_start read from the
clock at construction time. -/
def rlInit (p : RLParams) (t0 : ℚ) (m0 : MonthStamp) : RLState :=
  { tokens := (p.burst_size : ℚ)
    last_update := t0
    monthly_requests := 0
    month_start := m0 }

/-- The month-window check at the top of acquire: if current_month >
self.month_start then monthly_requests is reset to 0 and the window advances
to current_month. -/
def monthWindowCheck (st : RLState) (cur : MonthStamp) : RLState :=
  if MonthStamp.lt st.month_start cur then
    { st with monthly_requests := 0, month_start := cur }
  else st

/-- One token-bucket refill: tokens := min(burst_size, tokens + elapsed *
requests_per_second) with elapsed = now - last_update, then last_update :=
now. -/
def refill (p : RLParams) (st : RLState) (now : ℚ) : RLState :=
  { st with
    tokens := min (p.burst_size : ℚ)
      (st.tokens + (now - st.last_update) * p.requests_per_second)
    last_update := now }

/-- The wait loop of acquire ("while self.tokens < 1"): each iteration sleeps
and then re-runs the refill with a fresh clock reading. The list ts supplies
the clock readings observed after each sleep; if it is exhausted while
tokens < 1 the call is still suspended, modelled as none. -/
def waitLoop (p : RLParams) : RLState → List ℚ → Option RLState
  | st, [] => if st.tokens < 1 then none else some st
  | st, t :: ts =>
    if st.tokens < 1 then waitLoop p (refill p st t) ts else some st

/-- Outcome of one acquire call: the SportsDataIOQuotaExceeded exception (with
the state at the raise), normal return (with the final state), or a call that
is still suspended in the wait loop. -/
inductive AcquireResult where
  | quotaExceeded (st : RLState)
  | success (st : RLState)
  | pending
deriving DecidableEq

/-- Whether an acquire call returned normally. -/
def AcquireResult.isSuccess : AcquireResult → Bool
  | .success _ => true
  | _ => false

/-- RateLimiter.acquire. cur is the current-month stamp computed at entry,
now0 the first time.time() reading, ts the readings taken after each sleep of
the wait loop. The body runs under the instance lock, so one call sees no
interference. -/
def acquire (p : RLParams) (st : RLState) (cur : MonthStamp) (now0 : ℚ)
    (ts : List ℚ) : AcquireResult :=
  let st1 := monthWindowCheck st cur
  if p.requests_per_month ≤ st1.monthly_requests then
    .quotaExceeded st1
  else
    match waitLoop p (refill p st1 now0) ts with
    | none => .pending
    | some st2 =>
      .success { st2 with
        tokens := st2.tokens - 1
        monthly_requests := st2.monthly_requests + 1 }

/-- The limiter state observable after one acquire call. A pending call never
returns (and holds the lock), so it leaves the last observable state. -/
def stepState (p : RLParams) (st : RLState) (c : MonthStamp × ℚ × List ℚ) :
    RLState :=
  match acquire p st c.1 c.2.1 c.2.2 with
  | .quotaExceeded st1 => st1
  | .success st1 => st1
  | .pending => st

/-- The state after a sequence of acquire calls. -/
def runAcquires (p : RLParams) (st : RLState) :
    List (MonthStamp × ℚ × List ℚ) → RLState
  | [] => st
  | c :: cs => runAcquires p (stepState p st c) cs

/-- Invariant claimed for the token bucket. -/
def TokensInv (p : RLParams) (st : RLState) : Prop :=
  0 ≤ st.tokens ∧ st.tokens ≤ (p.burst_size : ℚ)

theorem monthWindowCheck_tokens (st : RLState) (cur : MonthStamp) :
    (monthWindowCheck st cur).tokens = st.tokens := by
  unfold monthWindowCheck; split <;> rfl

theorem refill_le (p : RLParams) (st : RLState) (now : ℚ) :
    (refill p st now).tokens ≤ (p.burst_size : ℚ) :=
  min_le_left _ _

theorem waitLoop_bounds (p : RLParams) :
    ∀ (ts : List ℚ) (st st' : RLState), waitLoop p st ts = some st' →
      st.tokens ≤ (p.burst_size : ℚ) →
      1 ≤ st'.tokens ∧ st'.tokens ≤ (p.burst_size : ℚ) := by
  intro ts
  induction ts with
  | nil =>
    intro st st' h hle
    unfold waitLoop at h
    by_cases hlt : st.tokens < 1
    · simp [hlt] at h
    · simp [hlt] at h
      subst h
      exact ⟨not_lt.mp hlt, hle⟩
  | cons t ts ih =>
    intro st st' h hle
    unfold waitLoop at h
    by_cases hlt : st.tokens < 1
    · simp [hlt] at h
      exact ih (refill p st t) st' h (refill_le p st t)
    · simp [hlt] at h
      subst h
      exact ⟨not_lt.mp hlt, hle⟩

theorem stepState_inv (p : RLParams) (st : RLState)
    (c : MonthStamp × ℚ × List ℚ) (h : TokensInv p st) :
    TokensInv p (stepState p st c) := by
  unfold stepState acquire
  by_cases hq :
      p.requests_per_month ≤ (monthWindowCheck st c.1).monthly_requests
  · simp only [hq, if_true]
    exact ⟨(monthWindowCheck_tokens st c.1) ▸ h.1,
      (monthWindowCheck_tokens st c.1) ▸ h.2⟩
  · simp only [hq, if_false]
    cases hw : waitLoop p (refill p (monthWindowCheck st c.1) c.2.1) c.2.2 with
    | none => exact h
    | some st2 =>
      have hb := waitLoop_bounds p c.2.2 _ st2 hw (refill_le p _ c.2.1)
      constructor
      · simpa using sub_nonneg.mpr hb.1
      · simp only
        have : st2.tokens - 1 ≤ st2.tokens := by linarith
        exact le_trans this hb.2

theorem runAcquires_inv (p : RLParams) :
    ∀ (calls : List (MonthStamp × ℚ × List ℚ)) (st : RLState),
      TokensInv p st → TokensInv p (runAcquires p st calls) := by
  intro calls
  induction calls with
  | nil => intro st h; exact h
  | cons c cs ih =>
    intro st h
    exact ih (stepState p st c) (stepState_inv p st c h)

/-- C3: for every sequence of acquire calls the token count stays within
[0, burst_size]: every refill is capped at burst_size, every observable
state transition preserves the bounds, and from the freshly constructed
state every sequence of calls ends within the bounds. -/
theorem c3_token_bounds (p : RLParams) :
    (∀ (st : RLState) (now : ℚ),
      (refill p st now).tokens ≤ (p.burst_size : ℚ)) ∧
    (∀ (st : RLState) (c : MonthStamp × ℚ × List ℚ),
      TokensInv p st → TokensInv p (stepState p st c)) ∧
    (∀ (t0 : ℚ) (m0 : MonthStamp) (calls : List (MonthStamp × ℚ × List ℚ)),
      TokensInv p (runAcquires p (rlInit p t0 m0) calls)) := by
  refine ⟨refill_le p, stepState_inv p, ?_⟩
  intro t0 m0 calls
  refine runAcquires_inv p calls _ ⟨?_, ?_⟩
  · exact Nat.cast_nonneg _
  · exact le_refl _

theorem c3_token_bounds_witness :
    TokensInv ⟨1, 1, 5⟩
      (stepState ⟨1, 1, 5⟩ (rlInit ⟨1, 1, 5⟩ 0 ⟨5, 0⟩) (⟨5, 0⟩, 0, [])) :=
  (c3_token_bounds ⟨1, 1, 5⟩).2.1 (rlInit ⟨1, 1, 5⟩ 0 ⟨5, 0⟩) (⟨5, 0⟩, 0, [])
    ⟨by decide, by decide⟩

/-- C2 (code bug exhibit): the window check resets monthly_requests to 0 on a
call whose calendar month equals the stored window's month, because replace
does not pin the microsecond field: stored stamp (month 5, microsecond 100)
versus current stamp (month 5, microsecond 200). -/
theorem c2_reset_within_same_month :
    (monthWindowCheck ⟨5, 0, 3, ⟨5, 100⟩⟩ ⟨5, 200⟩).monthly_requests = 0 ∧
    (⟨5, 200⟩ : MonthStamp).month =
      (⟨5, 0, 3, ⟨5, 100⟩⟩ : RLState).month_start.month ∧
    (⟨5, 0, 3, ⟨5, 100⟩⟩ : RLState).monthly_requests ≠ 0 := by
  decide

/-- C1 (code bug exhibit): with the monthly quota already reached, an acquire
call in the same calendar month (larger microsecond) succeeds instead of
failing with SportsDataIOQuotaExceeded: the buggy window check wipes the
counter first. -/
theorem c1_quota_bypassed_within_month :
    ((⟨4, 0, 1, ⟨5, 0⟩⟩ : RLState).monthly_requests =
      (⟨1, 1, 5⟩ : RLParams).requests_per_month) ∧
    (⟨5, 7⟩ : MonthStamp).month =
      (⟨4, 0, 1, ⟨5, 0⟩⟩ : RLState).month_start.month ∧
    (acquire ⟨1, 1, 5⟩ ⟨4, 0, 1, ⟨5, 0⟩⟩ ⟨5, 7⟩ 0 []).isSuccess = true := by
  refine ⟨rfl, rfl, ?_⟩
  have h1 : monthWindowCheck ⟨4, 0, 1, ⟨5, 0⟩⟩ ⟨5, 7⟩ =
      ⟨4, 0, 0, ⟨5, 7⟩⟩ := by decide
  have h2 : min ((5 : Nat) : ℚ) (4 + (0 - 0) * 1) = 4 := by norm_num
  simp only [acquire, h1, refill, waitLoop, h2]
  norm_num [AcquireResult.isSuccess]

/-- Cache data-type categories (class CacheDataType). -/
inductive CacheDataType where
  | odds
  | props
  | injuries
  | schedules
  | teams
  | players
  | stats
  | news
deriving DecidableEq

/-- String value of a CacheDataType member. -/
def CacheDataType.value : CacheDataType → String
  | .odds => "odds"
  | .props => "props"
  | .injuries => "injuries"
  | .schedules => "schedules"
  | .teams => "teams"
  | .players => "players"
  | .stats => "stats"
  | .news => "news"

/-- HOT_TTL table, seconds. Every data type is present, so the source's
lookup default of 900 is unreachable. -/
def hotTTL : CacheDataType → Nat
  | .odds => 300
  | .props => 900
  | .injuries => 3600
  | .schedules => 21600
  | .teams => 86400
  | .players => 43200
  | .stats => 86400
  | .news => 1800

/-- WARM_TTL table, seconds. Every data type is present, so the source's
lookup default of 3600 is unreachable. -/
def warmTTL : CacheDataType → Nat
  | .odds => 900
  | .props => 3600
  | .injuries => 21600
  | .schedules => 86400
  | .teams => 604800
  | .players => 259200
  | .stats => 604800
  | .news => 7200

/-- Opaque JSON-serializable payload; json.dumps/json.loads round-trip it. -/
abbrev Val := String

/-- One row of the cache_entries table (warm tier). The key column carries a
UNIQUE constraint. -/
structure WarmRow where
  key : String
  data : Val
  cached_at : ℚ
  expires_at : ℚ
  data_type : String
deriving DecidableEq

/-- CacheEntry.is_expired: now > expires_at (strict). -/
def WarmRow.is_expired (r : WarmRow) (now : ℚ) : Bool :=
  decide (r.expires_at < now)

/-- Error raised by the redis client (always caught by CacheManager). -/
inductive FastTierErr where
  | connectionLost
deriving DecidableEq

/-- Error raised by the caller-supplied fetch function (never caught). -/
inductive UpstreamErr where
  | upstreamFailure (msg : String)
deriving DecidableEq

/-- Per-call behaviour of the outside world during one CacheManager call:
whether the redis get and the redis setex raise, and the clock reading. -/
structure Env where
  hotGetFails : Bool
  hotSetFails : Bool
  now : ℚ
deriving DecidableEq

/-- State of one CacheManager instance: the redis client (hasRedis false
models a falsy self.redis), the redis keyspace (key, payload, ttl), the
cache_entries table, and the statistics counters. -/
structure CMState where
  hasRedis : Bool
  hot : List (String × Val × Nat)
  warm : List WarmRow
  hot_hits : Nat
  warm_hits : Nat
  cold_hits : Nat
  total_requests : Nat
deriving DecidableEq

/-- Raw redis.get: raises on connection failure, otherwise returns the stored
payload. json.dumps output is never empty, so a stored key is truthy. -/
def redisGet (st : CMState) (e : Env) (key : String) :
    Except FastTierErr (Option Val) :=
  if e.hotGetFails then .error .connectionLost
  else .ok ((st.hot.lookup key).map Prod.fst)

/-- CacheManager._get_from_hot_cache: returns None without a redis client;
wraps the redis call in try/except and degrades every error to a miss. -/
def getFromHotCache (st : CMState) (e : Env) (key : String) : Option Val :=
  if !st.hasRedis then none
  else
    match redisGet st e key with
    | .error _ => none
    | .ok d => d

/-- Raw redis.setex: raises on connection failure, otherwise stores the
payload under the key with the given TTL, replacing any previous entry. -/
def redisSetex (st : CMState) (e : Env) (key : String) (v : Val) (ttl : Nat) :
    Except FastTierErr (List (String × Val × Nat)) :=
  if e.hotSetFails then .error .connectionLost
  else .ok ((key, v, ttl) :: st.hot.filter (fun q => q.1 != key))

/-- CacheManager._set_hot_cache: no-op without a redis client; errors from
setex are caught and ignored; the TTL is HOT_TTL[data_type]. -/
def setHotCache (st : CMState) (e : Env) (key : String) (v : Val)
    (dt : CacheDataType) : CMState :=
  if !st.hasRedis then st
  else
    match redisSetex st e key v (hotTTL dt) with
    | .error _ => st
    | .ok hot' => { st with hot := hot' }

/-- CacheManager._get_from_warm_cache: point lookup by the unique key; an
expired row (per CacheEntry.is_expired) is deleted and reported as a miss; a
fresh row returns its data column. Returns the resulting table as well. -/
def getFromWarmCache (warm : List WarmRow) (now : ℚ) (key : String) :
    Option Val × List WarmRow :=
  match warm.find? (fun r => r.key == key) with
  | none => (none, warm)
  | some r =>
    if r.is_expired now then (none, warm.filter (fun r2 => r2.key != key))
    else (some r.data, warm)

/-- CacheManager._set_warm_cache: update the existing row in place (the key
is unique; its data_type column is left as is) or append a new row, with
expires_at := now + WARM_TTL[data_type]. -/
def setWarmCacheRows (warm : List WarmRow) (now : ℚ) (key : String) (v : Val)
    (dt : CacheDataType) : List WarmRow :=
  if (warm.find? (fun r => r.key == key)).isSome then
    warm.map (fun r =>
      if r.key == key then
        { r with data := v, cached_at := now,
                 expires_at := now + (warmTTL dt : ℚ) }
      else r)
  else
    warm ++ [{ key := key, data := v, cached_at := now,
               expires_at := now + (warmTTL dt : ℚ),
               data_type := dt.value }]

/-- The tail of CacheManager.get after both cache tiers missed: without a
fetch function the call returns None; otherwise cold_hits is incremented
before the fetch runs, a fetch error propagates with no further writes, and a
fetched value populates the hot then the warm tier. -/
def coldPath (st1 : CMState) (e : Env) (key : String) (dt : CacheDataType)
    (fetch : Option (Except UpstreamErr Val)) :
    Except UpstreamErr (Option Val) × CMState :=
  match fetch with
  | none => (.ok none, st1)
  | some f =>
    let st2 := { st1 with cold_hits := st1.cold_hits + 1 }
    match f with
    | .error u => (.error u, st2)
    | .ok v =>
      let st3 := setHotCache st2 e key v dt
      let st4 :=
        { st3 with warm := setWarmCacheRows st3.warm e.now key v dt }
      (.ok (some v), st4)

/-- CacheManager.get: increment total_requests at entry, then try the hot
tier, then the warm tier (promoting a fresh hit into the hot tier), then the
cold path with the caller-supplied fetch outcome (none models a call without
fetch_fn). -/
def cmGet (st : CMState) (e : Env) (key : String) (dt : CacheDataType)
    (fetch : Option (Except UpstreamErr Val)) :
    Except UpstreamErr (Option Val) × CMState :=
  let st0 := { st with total_requests := st.total_requests + 1 }
  match getFromHotCache st0 e key with
  | some v => (.ok (some v), { st0 with hot_hits := st0.hot_hits + 1 })
  | none =>
    match getFromWarmCache st0.warm e.now key with
    | (some v, warm') =>
      let st1 := { st0 with warm := warm', warm_hits := st0.warm_hits + 1 }
      (.ok (some v), setHotCache st1 e key v dt)
    | (none, warm') =>
      coldPath { st0 with warm := warm' } e key dt fetch

/-- Round half to even at the integer scale (Python round on a rational). -/
def roundHalfEven (x : ℚ) : ℤ :=
  let f := Int.floor x
  let r := x - (f : ℚ)
  if r < 1 / 2 then f
  else if 1 / 2 < r then f + 1
  else if f % 2 = 0 then f else f + 1

/-- Python round(x, 2). -/
def round2 (x : ℚ) : ℚ := (roundHalfEven (x * 100) : ℚ) / 100

/-- Telemetry read from redis.info(). -/
structure RedisInfo where
  used_memory_human : String
  connected_clients : Nat
deriving DecidableEq

/-- The dictionary returned by CacheManager.get_stats. Optional fields model
dictionary keys that are present only on the total_requests > 0 path; the
redis_info field is present on that path and itself empty (inner none)
without a redis client. -/
structure StatsResult where
  total_requests : Nat
  hot_hit_rate : ℚ
  warm_hit_rate : ℚ
  cold_hit_rate : ℚ
  overall_cache_hit_rate : ℚ
  hot_hits : Option Nat
  warm_hits : Option Nat
  cold_hits : Option Nat
  warm_cache_entries : Option Nat
  redis_info : Option (Option RedisInfo)
deriving DecidableEq

/-- CacheManager.get_stats; info is what redis.info() would report. -/
def cmGetStats (st : CMState) (info : RedisInfo) : StatsResult :=
  if st.total_requests = 0 then
    { total_requests := 0, hot_hit_rate := 0, warm_hit_rate := 0,
      cold_hit_rate := 0, overall_cache_hit_rate := 0,
      hot_hits := none, warm_hits := none, cold_hits := none,
      warm_cache_entries := none, redis_info := none }
  else
    let total : ℚ := (st.total_requests : ℚ)
    let hot_rate := ((st.hot_hits : ℚ) / total) * 100
    let warm_rate := ((st.warm_hits : ℚ) / total) * 100
    let cold_rate := ((st.cold_hits : ℚ) / total) * 100
    { total_requests := st.total_requests
      hot_hit_rate := round2 hot_rate
      warm_hit_rate := round2 warm_rate
      cold_hit_rate := round2 cold_rate
      overall_cache_hit_rate := round2 (hot_rate + warm_rate)
      hot_hits := some st.hot_hits
      warm_hits := some st.warm_hits
      cold_hits := some st.cold_hits
      warm_cache_entries := some st.warm.length
      redis_info := some (if st.hasRedis then some info else none) }

/-- build_cache_key: join the stringified parts with the ":" delimiter. A
Python str is modelled as its list of characters; the str() conversion of
each non-string part is applied by the caller of this model. -/
def build_cache_key (parts : List (List Char)) : List Char :=
  List.intercalate [':'] parts

/-- parse_cache_key: split the key on the ":" delimiter. -/
def parse_cache_key (key : List Char) : List (List Char) :=
  key.splitOn ':'

theorem setHotCache_hasRedis (st : CMState) (e : Env) (key : String)
    (v : Val) (dt : CacheDataType) :
    (setHotCache st e key v dt).hasRedis = st.hasRedis := by
  unfold setHotCache redisSetex
  by_cases h1 : st.hasRedis <;> by_cases h2 : e.hotSetFails <;> simp [h1, h2]

theorem setHotCache_warm (st : CMState) (e : Env) (key : String)
    (v : Val) (dt : CacheDataType) :
    (setHotCache st e key v dt).warm = st.warm := by
  unfold setHotCache redisSetex
  by_cases h1 : st.hasRedis <;> by_cases h2 : e.hotSetFails <;> simp [h1, h2]

theorem setHotCache_hot_hits (st : CMState) (e : Env) (key : String)
    (v : Val) (dt : CacheDataType) :
    (setHotCache st e key v dt).hot_hits = st.hot_hits := by
  unfold setHotCache redisSetex
  by_cases h1 : st.hasRedis <;> by_cases h2 : e.hotSetFails <;> simp [h1, h2]

theorem setHotCache_warm_hits (st : CMState) (e : Env) (key : String)
    (v : Val) (dt : CacheDataType) :
    (setHotCache st e key v dt).warm_hits = st.warm_hits := by
  unfold setHotCache redisSetex
  by_cases h1 : st.hasRedis <;> by_cases h2 : e.hotSetFails <;> simp [h1, h2]

theorem setHotCache_cold_hits (st : CMState) (e : Env) (key : String)
    (v : Val) (dt : CacheDataType) :
    (setHotCache st e key v dt).cold_hits = st.cold_hits := by
  unfold setHotCache redisSetex
  by_cases h1 : st.hasRedis <;> by_cases h2 : e.hotSetFails <;> simp [h1, h2]

theorem setHotCache_total (st : CMState) (e : Env) (key : String)
    (v : Val) (dt : CacheDataType) :
    (setHotCache st e key v dt).total_requests = st.total_requests := by
  unfold setHotCache redisSetex
  by_cases h1 : st.hasRedis <;> by_cases h2 : e.hotSetFails <;> simp [h1, h2]

/-- C4: a get with both tiers missing and no fetch function returns None and
leaves every statistics counter except total_requests unchanged; and every
get call, whatever its arguments and outcome, increments total_requests
exactly once, at entry. -/
theorem c4_miss_frame :
    (∀ (st : CMState) (e : Env) (key : String) (dt : CacheDataType),
      getFromHotCache st e key = none →
      (getFromWarmCache st.warm e.now key).1 = none →
      (cmGet st e key dt none).1 = .ok none ∧
      (cmGet st e key dt none).2.total_requests = st.total_requests + 1 ∧
      (cmGet st e key dt none).2.hot_hits = st.hot_hits ∧
      (cmGet st e key dt none).2.warm_hits = st.warm_hits ∧
      (cmGet st e key dt none).2.cold_hits = st.cold_hits) ∧
    (∀ (st : CMState) (e : Env) (key : String) (dt : CacheDataType)
      (fetch : Option (Except UpstreamErr Val)),
      (cmGet st e key dt fetch).2.total_requests = st.total_requests + 1) := by
  constructor
  · intro st e key dt hhot hwarm
    have hhot' :
        getFromHotCache { st with total_requests := st.total_requests + 1 }
          e key = none := hhot
    rcases hgw : getFromWarmCache st.warm e.now key with ⟨o, warm'⟩
    rw [hgw] at hwarm
    simp only at hwarm
    subst hwarm
    simp [cmGet, hhot', hgw, coldPath]
  · intro st e key dt fetch
    cases hh :
        getFromHotCache { st with total_requests := st.total_requests + 1 }
          e key with
    | some v => simp [cmGet, hh]
    | none =>
      rcases hgw : getFromWarmCache st.warm e.now key with ⟨o, warm'⟩
      cases o with
      | some v => simp [cmGet, hh, hgw, setHotCache_total]
      | none =>
        cases fetch with
        | none => simp [cmGet, hh, hgw, coldPath]
        | some f =>
          cases f with
          | error u => simp [cmGet, hh, hgw, coldPath]
          | ok v => simp [cmGet, hh, hgw, coldPath, setHotCache_total]

theorem c4_miss_frame_witness :
    (cmGet ⟨true, [], [], 0, 0, 0, 0⟩ ⟨false, false, 0⟩ "k" .props none).1 =
      .ok none ∧
    (cmGet ⟨true, [], [], 0, 0, 0, 0⟩ ⟨false, false, 0⟩ "k" .props
      none).2.total_requests = 0 + 1 ∧
    (cmGet ⟨true, [], [], 0, 0, 0, 0⟩ ⟨false, false, 0⟩ "k" .props
      none).2.hot_hits = 0 ∧
    (cmGet ⟨true, [], [], 0, 0, 0, 0⟩ ⟨false, false, 0⟩ "k" .props
      none).2.warm_hits = 0 ∧
    (cmGet ⟨true, [], [], 0, 0, 0, 0⟩ ⟨false, false, 0⟩ "k" .props
      none).2.cold_hits = 0 :=
  c4_miss_frame.1 ⟨true, [], [], 0, 0, 0, 0⟩ ⟨false, false, 0⟩ "k" .props
    (by decide) (by decide)

/-- C10: when both tiers miss and the supplied fetch fails, cold_hits and
total_requests were already incremented before the fetch ran, so the error
propagates unchanged while both increments survive and no tier is written
(the warm table is exactly the one the lookup left behind). -/
theorem c10_cold_fetch_error (st : CMState) (e : Env) (key : String)
    (dt : CacheDataType) (u : UpstreamErr)
    (hhot : getFromHotCache st e key = none)
    (hwarm : (getFromWarmCache st.warm e.now key).1 = none) :
    (cmGet st e key dt (some (.error u))).1 = .error u ∧
    (cmGet st e key dt (some (.error u))).2 =
      { st with warm := (getFromWarmCache st.warm e.now key).2,
                cold_hits := st.cold_hits + 1,
                total_requests := st.total_requests + 1 } := by
  have hhot' :
      getFromHotCache { st with total_requests := st.total_requests + 1 }
        e key = none := hhot
  rcases hgw : getFromWarmCache st.warm e.now key with ⟨o, warm'⟩
  rw [hgw] at hwarm
  simp only at hwarm
  subst hwarm
  simp [cmGet, hhot', hgw, coldPath]

theorem c10_cold_fetch_error_witness :
    (cmGet ⟨true, [], [], 0, 0, 0, 0⟩ ⟨false, false, 0⟩ "k" .props
      (some (.error (.upstreamFailure "boom")))).1 =
        .error (.upstreamFailure "boom") ∧
    (cmGet ⟨true, [], [], 0, 0, 0, 0⟩ ⟨false, false, 0⟩ "k" .props
      (some (.error (.upstreamFailure "boom")))).2 =
        ⟨true, [], [], 0, 0, 1, 1⟩ :=
  c10_cold_fetch_error ⟨true, [], [], 0, 0, 0, 0⟩ ⟨false, false, 0⟩ "k"
    .props (.upstreamFailure "boom") (by decide) (by decide)

/-- State whose warm tier no longer has any row for the key: what the lazy
deletion of a stale row leaves behind. -/
def removeWarmKey (st : CMState) (key : String) : CMState :=
  { st with warm := st.warm.filter (fun r => r.key != key) }

theorem find?_filter_ne (warm : List WarmRow) (key : String) :
    (warm.filter (fun r => r.key != key)).find?
      (fun row => row.key == key) = none := by
  refine List.find?_eq_none.mpr ?_
  intro x hx
  have hx2 := (List.mem_filter.mp hx).2
  simpa using hx2

/-- C5: a warm-tier row whose expiry lies in the past is never served: a get
that misses the hot tier behaves exactly as if the stale row were already
deleted, the stale row is gone from the resulting warm tier when nothing is
refetched, a supplied fetch outcome decides the result, and a supplied fetch
is charged as a cold hit. -/
theorem c5_expired_full_miss (st : CMState) (e : Env) (key : String)
    (dt : CacheDataType) (fetch : Option (Except UpstreamErr Val))
    (r : WarmRow)
    (hhot : getFromHotCache st e key = none)
    (hfind : st.warm.find? (fun row => row.key == key) = some r)
    (hexp : r.is_expired e.now = true) :
    cmGet st e key dt fetch = cmGet (removeWarmKey st key) e key dt fetch ∧
    (fetch = none →
      (cmGet st e key dt fetch).1 = .ok none ∧
      (cmGet st e key dt fetch).2.warm.find? (fun row => row.key == key) =
        none) ∧
    (∀ v, fetch = some (.ok v) →
      (cmGet st e key dt fetch).1 = .ok (some v)) ∧
    (∀ u, fetch = some (.error u) →
      (cmGet st e key dt fetch).1 = .error u) ∧
    (fetch.isSome = true →
      (cmGet st e key dt fetch).2.cold_hits = st.cold_hits + 1) := by
  have hgw1 : getFromWarmCache st.warm e.now key =
      (none, st.warm.filter (fun r2 => r2.key != key)) := by
    unfold getFromWarmCache
    rw [hfind]
    simp [hexp]
  have hgw2 : getFromWarmCache (st.warm.filter (fun r2 => r2.key != key))
      e.now key = (none, st.warm.filter (fun r2 => r2.key != key)) := by
    unfold getFromWarmCache
    rw [show (st.warm.filter (fun r2 => r2.key != key)).find?
      (fun row => row.key == key) = none from find?_filter_ne st.warm key]
  have hhot1 : getFromHotCache
      { st with total_requests := st.total_requests + 1 } e key = none := hhot
  have hhot2 : getFromHotCache
      { st with warm := st.warm.filter (fun r2 => r2.key != key),
                total_requests := st.total_requests + 1 } e key = none := hhot
  refine ⟨?_, ?_, ?_, ?_, ?_⟩
  · simp only [cmGet, removeWarmKey, hhot1, hhot2, hgw1, hgw2]
  · intro hf
    subst hf
    simp only [cmGet, hhot1, hgw1, coldPath]
    exact ⟨trivial, find?_filter_ne st.warm key⟩
  · intro v hf
    subst hf
    simp only [cmGet, hhot1, hgw1, coldPath]
  · intro u hf
    subst hf
    simp only [cmGet, hhot1, hgw1, coldPath]
  · intro hs
    cases fetch with
    | none => simp at hs
    | some f =>
      cases f with
      | error u => simp [cmGet, hhot1, hgw1, coldPath]
      | ok v => simp [cmGet, hhot1, hgw1, coldPath, setHotCache_cold_hits]

theorem c5_expired_full_miss_witness :
    cmGet ⟨true, [], [⟨"k", "v", 0, 10, "props"⟩], 0, 0, 0, 0⟩
        ⟨false, false, 20⟩ "k" .props none =
      cmGet (removeWarmKey ⟨true, [], [⟨"k", "v", 0, 10, "props"⟩],
        0, 0, 0, 0⟩ "k") ⟨false, false, 20⟩ "k" .props none ∧
    ((none : Option (Except UpstreamErr Val)) = none →
      (cmGet ⟨true, [], [⟨"k", "v", 0, 10, "props"⟩], 0, 0, 0, 0⟩
        ⟨false, false, 20⟩ "k" .props none).1 = .ok none ∧
      (cmGet ⟨true, [], [⟨"k", "v", 0, 10, "props"⟩], 0, 0, 0, 0⟩
        ⟨false, false, 20⟩ "k" .props none).2.warm.find?
        (fun row => row.key == "k") = none) ∧
    (∀ v, (none : Option (Except UpstreamErr Val)) = some (.ok v) →
      (cmGet ⟨true, [], [⟨"k", "v", 0, 10, "props"⟩], 0, 0, 0, 0⟩
        ⟨false, false, 20⟩ "k" .props none).1 = .ok (some v)) ∧
    (∀ u, (none : Option (Except UpstreamErr Val)) = some (.error u) →
      (cmGet ⟨true, [], [⟨"k", "v", 0, 10, "props"⟩], 0, 0, 0, 0⟩
        ⟨false, false, 20⟩ "k" .props none).1 = .error u) ∧
    ((none : Option (Except UpstreamErr Val)).isSome = true →
      (cmGet ⟨true, [], [⟨"k", "v", 0, 10, "props"⟩], 0, 0, 0, 0⟩
        ⟨false, false, 20⟩ "k" .props none).2.cold_hits = 0 + 1) :=
  c5_expired_full_miss ⟨true, [], [⟨"k", "v", 0, 10, "props"⟩], 0, 0, 0, 0⟩
    ⟨false, false, 20⟩ "k" .props none ⟨"k", "v", 0, 10, "props"⟩
    (by decide) (by decide) (by decide)

theorem setHotCache_eq (st : CMState) (e : Env) (key : String) (v : Val)
    (dt : CacheDataType) (hr : st.hasRedis = true)
    (hs : e.hotSetFails = false) :
    setHotCache st e key v dt =
      { st with hot := (key, v, hotTTL dt) ::
          st.hot.filter (fun q => q.1 != key) } := by
  unfold setHotCache redisSetex
  simp [hr, hs]

theorem getFromHotCache_found (st : CMState) (e : Env) (key : String)
    (v : Val) (ttl : Nat) (hr : st.hasRedis = true)
    (hg : e.hotGetFails = false)
    (hhd : st.hot.lookup key = some (v, ttl)) :
    getFromHotCache st e key = some v := by
  unfold getFromHotCache redisGet
  simp [hr, hg, hhd]

theorem cmGet_hot_hit (st : CMState) (e : Env) (key : String)
    (dt : CacheDataType) (fetch : Option (Except UpstreamErr Val)) (v : Val)
    (h : getFromHotCache { st with total_requests := st.total_requests + 1 }
      e key = some v) :
    cmGet st e key dt fetch =
      (.ok (some v), { st with total_requests := st.total_requests + 1,
                               hot_hits := st.hot_hits + 1 }) := by
  simp only [cmGet, h]

/-- C6: when the hot tier misses (here because the redis read fails) but the
warm tier holds a fresh row, get returns the stored value, counts a warm hit,
and promotes the value into the hot tier under the data type's hot-tier TTL,
so that an immediately following get with a healthy redis is served as a hot
hit. -/
theorem c6_warm_hit_promotes (st : CMState) (e1 : Env) (t2 : ℚ)
    (key : String) (dt : CacheDataType) (r : WarmRow)
    (hr : st.hasRedis = true)
    (hhot : getFromHotCache st e1 key = none)
    (hset : e1.hotSetFails = false)
    (hfind : st.warm.find? (fun row => row.key == key) = some r)
    (hfresh : r.is_expired e1.now = false) :
    (cmGet st e1 key dt none).1 = .ok (some r.data) ∧
    (cmGet st e1 key dt none).2.warm_hits = st.warm_hits + 1 ∧
    (cmGet st e1 key dt none).2.hot.lookup key = some (r.data, hotTTL dt) ∧
    (cmGet (cmGet st e1 key dt none).2 ⟨false, false, t2⟩ key dt none).1 =
      .ok (some r.data) ∧
    (cmGet (cmGet st e1 key dt none).2 ⟨false, false, t2⟩ key dt
        none).2.hot_hits = (cmGet st e1 key dt none).2.hot_hits + 1 := by
  have hhot1 : getFromHotCache
      { st with total_requests := st.total_requests + 1 } e1 key = none :=
    hhot
  have hgw : getFromWarmCache st.warm e1.now key = (some r.data, st.warm) := by
    unfold getFromWarmCache
    rw [hfind]
    simp [hfresh]
  have h1 : cmGet st e1 key dt none =
      (.ok (some r.data),
        { st with warm_hits := st.warm_hits + 1,
                  total_requests := st.total_requests + 1,
                  hot := (key, r.data, hotTTL dt) ::
                    st.hot.filter (fun q => q.1 != key) }) := by
    simp only [cmGet, hhot1, hgw]
    rw [setHotCache_eq
      { st with warm_hits := st.warm_hits + 1,
                total_requests := st.total_requests + 1 }
      e1 key r.data dt hr hset]
  have hlook : ((key, r.data, hotTTL dt) ::
      st.hot.filter (fun q => q.1 != key)).lookup key =
      some (r.data, hotTTL dt) := by
    simp [List.lookup]
  have h2 : cmGet
      { st with warm_hits := st.warm_hits + 1,
                total_requests := st.total_requests + 1,
                hot := (key, r.data, hotTTL dt) ::
                  st.hot.filter (fun q => q.1 != key) }
      ⟨false, false, t2⟩ key dt none =
      (.ok (some r.data),
        { st with warm_hits := st.warm_hits + 1,
                  total_requests := st.total_requests + 1 + 1,
                  hot := (key, r.data, hotTTL dt) ::
                    st.hot.filter (fun q => q.1 != key),
                  hot_hits := st.hot_hits + 1 }) :=
    cmGet_hot_hit _ ⟨false, false, t2⟩ key dt none r.data
      (getFromHotCache_found _ ⟨false, false, t2⟩ key r.data (hotTTL dt)
        hr rfl hlook)
  rw [h1]
  exact ⟨rfl, rfl, hlook, by rw [h2], by rw [h2]⟩

theorem c6_warm_hit_promotes_witness :
    (cmGet ⟨true, [], [⟨"k", "v", 0, 100, "props"⟩], 0, 0, 0, 0⟩
      ⟨true, false, 5⟩ "k" .props none).1 = .ok (some "v") ∧
    (cmGet ⟨true, [], [⟨"k", "v", 0, 100, "props"⟩], 0, 0, 0, 0⟩
      ⟨true, false, 5⟩ "k" .props none).2.warm_hits = 0 + 1 ∧
    (cmGet ⟨true, [], [⟨"k", "v", 0, 100, "props"⟩], 0, 0, 0, 0⟩
      ⟨true, false, 5⟩ "k" .props none).2.hot.lookup "k" =
        some ("v", hotTTL .props) ∧
    (cmGet (cmGet ⟨true, [], [⟨"k", "v", 0, 100, "props"⟩], 0, 0, 0, 0⟩
      ⟨true, false, 5⟩ "k" .props none).2 ⟨false, false, 6⟩ "k" .props
      none).1 = .ok (some "v") ∧
    (cmGet (cmGet ⟨true, [], [⟨"k", "v", 0, 100, "props"⟩], 0, 0, 0, 0⟩
      ⟨true, false, 5⟩ "k" .props none).2 ⟨false, false, 6⟩ "k" .props
      none).2.hot_hits =
      (cmGet ⟨true, [], [⟨"k", "v", 0, 100, "props"⟩], 0, 0, 0, 0⟩
        ⟨true, false, 5⟩ "k" .props none).2.hot_hits + 1 :=
  c6_warm_hit_promotes ⟨true, [], [⟨"k", "v", 0, 100, "props"⟩], 0, 0, 0, 0⟩
    ⟨true, false, 5⟩ 6 "k" .props ⟨"k", "v", 0, 100, "props"⟩
    (by decide) (by decide) (by decide) (by decide) (by decide)

theorem getFromHotCache_fail (st : CMState) (e : Env) (key : String)
    (h : e.hotGetFails = true) : getFromHotCache st e key = none := by
  unfold getFromHotCache redisGet
  by_cases h1 : st.hasRedis <;> simp [h1, h]

theorem getFromHotCache_noRedis (st : CMState) (e : Env) (key : String)
    (h : st.hasRedis = false) : getFromHotCache st e key = none := by
  unfold getFromHotCache
  simp [h]

theorem setHotCache_fail (st : CMState) (e : Env) (key : String) (v : Val)
    (dt : CacheDataType) (h : e.hotSetFails = true) :
    setHotCache st e key v dt = st := by
  unfold setHotCache redisSetex
  by_cases h1 : st.hasRedis <;> simp [h1, h]

theorem setHotCache_noRedis (st : CMState) (e : Env) (key : String) (v : Val)
    (dt : CacheDataType) (h : st.hasRedis = false) :
    setHotCache st e key v dt = st := by
  unfold setHotCache
  simp [h]

/-- C7: errors raised by the redis client during the fast-tier read or write
are raised by the raw operations, caught inside the manager and downgraded to
a miss of the fast tier only: a get whose redis reads and writes both fail
leaves the redis keyspace untouched and produces exactly the result, warm
table and counters of a get run with no redis client at all, so the error
never reaches the caller and never stops the cascade. -/
theorem c7_fast_tier_errors_absorbed (st : CMState) (g s : Bool) (t : ℚ)
    (key : String) (v : Val) (dt : CacheDataType)
    (fetch : Option (Except UpstreamErr Val)) :
    redisGet st ⟨true, s, t⟩ key = .error .connectionLost ∧
    getFromHotCache st ⟨true, s, t⟩ key = none ∧
    redisSetex st ⟨g, true, t⟩ key v (hotTTL dt) = .error .connectionLost ∧
    setHotCache st ⟨g, true, t⟩ key v dt = st ∧
    (cmGet st ⟨true, true, t⟩ key dt fetch).1 =
      (cmGet { st with hasRedis := false } ⟨g, s, t⟩ key dt fetch).1 ∧
    (cmGet st ⟨true, true, t⟩ key dt fetch).2.hot = st.hot ∧
    (cmGet st ⟨true, true, t⟩ key dt fetch).2.warm =
      (cmGet { st with hasRedis := false } ⟨g, s, t⟩ key dt fetch).2.warm ∧
    (cmGet st ⟨true, true, t⟩ key dt fetch).2.hot_hits =
      (cmGet { st with hasRedis := false } ⟨g, s, t⟩ key dt
        fetch).2.hot_hits ∧
    (cmGet st ⟨true, true, t⟩ key dt fetch).2.warm_hits =
      (cmGet { st with hasRedis := false } ⟨g, s, t⟩ key dt
        fetch).2.warm_hits ∧
    (cmGet st ⟨true, true, t⟩ key dt fetch).2.cold_hits =
      (cmGet { st with hasRedis := false } ⟨g, s, t⟩ key dt
        fetch).2.cold_hits ∧
    (cmGet st ⟨true, true, t⟩ key dt fetch).2.total_requests =
      (cmGet { st with hasRedis := false } ⟨g, s, t⟩ key dt
        fetch).2.total_requests := by
  have hA : getFromHotCache
      { st with total_requests := st.total_requests + 1 }
      ⟨true, true, t⟩ key = none :=
    getFromHotCache_fail _ _ key rfl
  have hB : getFromHotCache
      { st with hasRedis := false, total_requests := st.total_requests + 1 }
      ⟨g, s, t⟩ key = none :=
    getFromHotCache_noRedis _ _ key rfl
  have hmain :
      (cmGet st ⟨true, true, t⟩ key dt fetch).1 =
        (cmGet { st with hasRedis := false } ⟨g, s, t⟩ key dt fetch).1 ∧
      (cmGet st ⟨true, true, t⟩ key dt fetch).2.hot = st.hot ∧
      (cmGet st ⟨true, true, t⟩ key dt fetch).2.warm =
        (cmGet { st with hasRedis := false } ⟨g, s, t⟩ key dt fetch).2.warm ∧
      (cmGet st ⟨true, true, t⟩ key dt fetch).2.hot_hits =
        (cmGet { st with hasRedis := false } ⟨g, s, t⟩ key dt
          fetch).2.hot_hits ∧
      (cmGet st ⟨true, true, t⟩ key dt fetch).2.warm_hits =
        (cmGet { st with hasRedis := false } ⟨g, s, t⟩ key dt
          fetch).2.warm_hits ∧
      (cmGet st ⟨true, true, t⟩ key dt fetch).2.cold_hits =
        (cmGet { st with hasRedis := false } ⟨g, s, t⟩ key dt
          fetch).2.cold_hits ∧
      (cmGet st ⟨true, true, t⟩ key dt fetch).2.total_requests =
        (cmGet { st with hasRedis := false } ⟨g, s, t⟩ key dt
          fetch).2.total_requests := by
    rcases hgw : getFromWarmCache st.warm t key with ⟨o, warm'⟩
    cases o with
    | some v2 =>
      simp [cmGet, hA, hB, hgw, setHotCache_fail, setHotCache_noRedis]
    | none =>
      cases fetch with
      | none => simp [cmGet, hA, hB, hgw, coldPath]
      | some f =>
        cases f with
        | error u => simp [cmGet, hA, hB, hgw, coldPath]
        | ok v2 =>
          simp [cmGet, hA, hB, hgw, coldPath, setHotCache_fail,
            setHotCache_noRedis]
  exact ⟨rfl, getFromHotCache_fail st ⟨true, s, t⟩ key rfl, rfl,
    setHotCache_fail st ⟨g, true, t⟩ key v dt rfl,
    hmain.1, hmain.2.1, hmain.2.2.1, hmain.2.2.2.1, hmain.2.2.2.2.1,
    hmain.2.2.2.2.2.1, hmain.2.2.2.2.2.2⟩

/-- C8 counterexample: parsing is not the exact inverse of building for every
list of parts: the single part "a:b" contains the delimiter, builds to the
key "a:b", and parses back into the two parts "a" and "b"; and the empty
list builds to the empty key, which parses into one empty part. -/
theorem c8_roundtrip_counterexample :
    parse_cache_key (build_cache_key [['a', ':', 'b']]) ≠
      [['a', ':', 'b']] ∧
    parse_cache_key (build_cache_key []) ≠ [] := by
  decide

/-- C8 amended: for every nonempty list of parts in which no part contains
the delimiter, parsing inverts building; in particular the props example
round-trips, the numeric parts being stringified by str(). -/
theorem c8_roundtrip_amended (parts : List (List Char))
    (hne : parts ≠ [])
    (hnc : ∀ p ∈ parts, ':' ∉ p) :
    parse_cache_key (build_cache_key parts) = parts ∧
    build_cache_key
      ["props".toList, "week".toList, "2024".toList, "8".toList] =
      "props:week:2024:8".toList ∧
    parse_cache_key "props:week:2024:8".toList =
      ["props".toList, "week".toList, "2024".toList, "8".toList] := by
  refine ⟨?_, by decide, by decide⟩
  unfold parse_cache_key build_cache_key
  exact List.splitOn_intercalate parts ':' hnc hne

theorem c8_roundtrip_amended_witness :
    parse_cache_key (build_cache_key
      ["props".toList, "week".toList, "2024".toList, "8".toList]) =
      ["props".toList, "week".toList, "2024".toList, "8".toList] ∧
    build_cache_key
      ["props".toList, "week".toList, "2024".toList, "8".toList] =
      "props:week:2024:8".toList ∧
    parse_cache_key "props:week:2024:8".toList =
      ["props".toList, "week".toList, "2024".toList, "8".toList] :=
  c8_roundtrip_amended
    ["props".toList, "week".toList, "2024".toList, "8".toList]
    (by decide) (by decide)

/-- C9 counterexample: get_stats does not report the sum of the three rates
as the overall rate (cold hits are excluded from it): after a single request
served by the upstream fetch the overall rate is 0 while the three rates sum
to 100; and on a freshly constructed manager (total_requests = 0) the raw
counters and the warm-tier row count are omitted even though a warm row and
a redis client exist. -/
theorem c9_stats_counterexample :
    ((cmGetStats ⟨true, [], [], 0, 0, 1, 1⟩ ⟨"1M", 1⟩).overall_cache_hit_rate ≠
      (cmGetStats ⟨true, [], [], 0, 0, 1, 1⟩ ⟨"1M", 1⟩).hot_hit_rate +
      (cmGetStats ⟨true, [], [], 0, 0, 1, 1⟩ ⟨"1M", 1⟩).warm_hit_rate +
      (cmGetStats ⟨true, [], [], 0, 0, 1, 1⟩ ⟨"1M", 1⟩).cold_hit_rate) ∧
    (cmGetStats ⟨true, [], [⟨"k", "v", 0, 10, "props"⟩], 0, 0, 0, 0⟩
      ⟨"1M", 1⟩).warm_cache_entries = none ∧
    (cmGetStats ⟨true, [], [⟨"k", "v", 0, 10, "props"⟩], 0, 0, 0, 0⟩
      ⟨"1M", 1⟩).hot_hits = none ∧
    (cmGetStats ⟨true, [], [⟨"k", "v", 0, 10, "props"⟩], 0, 0, 0, 0⟩
      ⟨"1M", 1⟩).redis_info = none := by
  refine ⟨?_, rfl, rfl, rfl⟩
  norm_num [cmGetStats, round2, roundHalfEven]

/-- C9 amended: on every state with at least one recorded request, get_stats
reports the three per-tier hit-rate percentages, the sum of the hot and warm
rates (only) as the overall cache-hit rate, the raw counters, the warm-tier
row count and the redis telemetry (empty without a client); on the
total_requests = 0 state it reports only zeroed rates and omits the rest. -/
theorem c9_stats_amended (st : CMState) (info : RedisInfo) :
    (st.total_requests ≠ 0 →
      (cmGetStats st info).total_requests = st.total_requests ∧
      (cmGetStats st info).hot_hit_rate =
        round2 (((st.hot_hits : ℚ) / (st.total_requests : ℚ)) * 100) ∧
      (cmGetStats st info).warm_hit_rate =
        round2 (((st.warm_hits : ℚ) / (st.total_requests : ℚ)) * 100) ∧
      (cmGetStats st info).cold_hit_rate =
        round2 (((st.cold_hits : ℚ) / (st.total_requests : ℚ)) * 100) ∧
      (cmGetStats st info).overall_cache_hit_rate =
        round2 ((((st.hot_hits : ℚ) + (st.warm_hits : ℚ)) /
          (st.total_requests : ℚ)) * 100) ∧
      (cmGetStats st info).hot_hits = some st.hot_hits ∧
      (cmGetStats st info).warm_hits = some st.warm_hits ∧
      (cmGetStats st info).cold_hits = some st.cold_hits ∧
      (cmGetStats st info).warm_cache_entries = some st.warm.length ∧
      (cmGetStats st info).redis_info =
        some (if st.hasRedis then some info else none)) ∧
    (st.total_requests = 0 →
      cmGetStats st info =
        { total_requests := 0, hot_hit_rate := 0, warm_hit_rate := 0,
          cold_hit_rate := 0, overall_cache_hit_rate := 0,
          hot_hits := none, warm_hits := none, cold_hits := none,
          warm_cache_entries := none, redis_info := none }) := by
  constructor
  · intro h
    have e1 : cmGetStats st info =
        { total_requests := st.total_requests
          hot_hit_rate :=
            round2 (((st.hot_hits : ℚ) / (st.total_requests : ℚ)) * 100)
          warm_hit_rate :=
            round2 (((st.warm_hits : ℚ) / (st.total_requests : ℚ)) * 100)
          cold_hit_rate :=
            round2 (((st.cold_hits : ℚ) / (st.total_requests : ℚ)) * 100)
          overall_cache_hit_rate :=
            round2 (((st.hot_hits : ℚ) / (st.total_requests : ℚ)) * 100 +
              ((st.warm_hits : ℚ) / (st.total_requests : ℚ)) * 100)
          hot_hits := some st.hot_hits
          warm_hits := some st.warm_hits
          cold_hits := some st.cold_hits
          warm_cache_entries := some st.warm.length
          redis_info := some (if st.hasRedis then some info else none) } := by
      unfold cmGetStats
      rw [if_neg h]
    rw [e1]
    refine ⟨rfl, rfl, rfl, rfl, ?_, rfl, rfl, rfl, rfl, rfl⟩
    ring_nf
  · intro h
    unfold cmGetStats
    rw [if_pos h]

theorem c9_stats_amended_witness :
    (cmGetStats ⟨true, [], [], 1, 0, 0, 2⟩ ⟨"1M", 1⟩).total_requests = 2 ∧
    (cmGetStats ⟨true, [], [], 1, 0, 0, 2⟩ ⟨"1M", 1⟩).hot_hit_rate =
      round2 ((((1 : Nat) : ℚ) / ((2 : Nat) : ℚ)) * 100) ∧
    (cmGetStats ⟨true, [], [], 1, 0, 0, 2⟩ ⟨"1M", 1⟩).warm_hit_rate =
      round2 ((((0 : Nat) : ℚ) / ((2 : Nat) : ℚ)) * 100) ∧
    (cmGetStats ⟨true, [], [], 1, 0, 0, 2⟩ ⟨"1M", 1⟩).cold_hit_rate =
      round2 ((((0 : Nat) : ℚ) / ((2 : Nat) : ℚ)) * 100) ∧
    (cmGetStats ⟨true, [], [], 1, 0, 0, 2⟩ ⟨"1M", 1⟩).overall_cache_hit_rate =
      round2 ((((1 : Nat) : ℚ) + ((0 : Nat) : ℚ)) / ((2 : Nat) : ℚ) * 100) ∧
    (cmGetStats ⟨true, [], [], 1, 0, 0, 2⟩ ⟨"1M", 1⟩).hot_hits = some 1 ∧
    (cmGetStats ⟨true, [], [], 1, 0, 0, 2⟩ ⟨"1M", 1⟩).warm_hits = some 0 ∧
    (cmGetStats ⟨true, [], [], 1, 0, 0, 2⟩ ⟨"1M", 1⟩).cold_hits = some 0 ∧
    (cmGetStats ⟨true, [], [], 1, 0, 0, 2⟩ ⟨"1M", 1⟩).warm_cache_entries =
      some 0 ∧
    (cmGetStats ⟨true, [], [], 1, 0, 0, 2⟩ ⟨"1M", 1⟩).redis_info =
      some (some ⟨"1M", 1⟩) :=
  (c9_stats_amended ⟨true, [], [], 1, 0, 0, 2⟩ ⟨"1M", 1⟩).1 (by decide)
